import Mathlib

/-!
Formal model of the `multicore-bouncing-balls` simulation.

The development shallowly embeds the simulation's physics and construction
code in Lean over exact rational arithmetic.  Floating-point square roots
(`std::sqrt`, OpenCL `sqrt`) are modelled by passing the computed distance
as an explicit argument `dist`, constrained in theorems by
`dist * dist = distSquared` and `0 ≤ dist`.

Three implementation variants of the collision code are modelled:
* `BallThread` — the ball-per-thread variant (`src/Ball.cpp`);
* `GridBall`  — the grid/mutex variant (`src/unnamed/part_009`, with
  `src/unnamed/part_010` providing the grid);
* `CLKernel`  — the OpenCL kernel (`src/kernels/simulation.cl`).

The GPU-pipeline constructor (`src/Simulation.cpp`) is modelled in
`SimCtor`, with the random number draws supplied as oracle streams.
-/

namespace BouncingBalls

/-- Ball record: id, position, velocity, radius, mass, colour, as shared by
the variants (`Ball.h`, `Types.h`).  Exact rationals stand in for `float`. -/
structure Ball where
  id : Int
  x : ℚ
  y : ℚ
  vx : ℚ
  vy : ℚ
  radius : ℚ
  mass : ℚ
  color : Int
  deriving DecidableEq

/-- Kinetic energy `½·m·|v|²` of one ball. -/
def ke (b : Ball) : ℚ := b.mass * (b.vx * b.vx + b.vy * b.vy) / 2

namespace BallThread

/-- `constexpr float GRAVITY = 9.81f` in `src/Ball.cpp`. -/
def GRAVITY : ℚ := 981 / 100

/-- `constexpr float RESTITUTION = 0.9f` in `src/Ball.cpp`. -/
def RESTITUTION : ℚ := 9 / 10

/-- `vy_.fetch_and_add(GRAVITY * dt)` from `Ball::run`. -/
def applyGravity (dt : ℚ) (b : Ball) : Ball :=
  { b with vy := b.vy + GRAVITY * dt }

/-- `Ball::updatePosition`: Euler integration of position. -/
def updatePosition (dt : ℚ) (b : Ball) : Ball :=
  { b with x := b.x + b.vx * dt, y := b.y + b.vy * dt }

/-- `Ball::checkCollisionWithBoundary`: clamp each axis into the arena and
reflect the corresponding velocity component scaled by restitution. -/
def checkCollisionWithBoundary (W H : ℚ) (b : Ball) : Ball :=
  { b with
    x := if b.x - b.radius < 0 then b.radius
         else if W < b.x + b.radius then W - b.radius
         else b.x,
    vx := if b.x - b.radius < 0 then abs b.vx * RESTITUTION
          else if W < b.x + b.radius then -(abs b.vx) * RESTITUTION
          else b.vx,
    y := if b.y - b.radius < 0 then b.radius
         else if H < b.y + b.radius then H - b.radius
         else b.y,
    vy := if b.y - b.radius < 0 then abs b.vy * RESTITUTION
          else if H < b.y + b.radius then -(abs b.vy) * RESTITUTION
          else b.vy }

/-- One iteration of the physics part of `Ball::run`: gravity, Euler
integration, then boundary handling (integrate-then-clamp). -/
def tick (W H dt : ℚ) (b : Ball) : Ball :=
  checkCollisionWithBoundary W H (updatePosition dt (applyGravity dt b))

/-- Candidate filter of the loop in `Ball::checkCollisionWithBalls`
(lines 90–91): every ball of the list reaches the narrow-phase distance
test except the one whose id equals the caller's own id. -/
def narrowPhaseCandidates (self : Ball) (balls : List Ball) : List Ball :=
  balls.filter (fun other => other.id != self.id)

end BallThread

/-- Degenerate-case adjustment shared by `src/Ball.cpp` (lines 99–105) and
`src/unnamed/part_009` (lines 66–72): if the computed distance is exactly
zero, replace `(dx, dy, distance)` by `(minDist, 0, minDist)`. -/
def adjDelta0 (b1 b2 : Ball) (dist : ℚ) : ℚ × ℚ × ℚ :=
  if dist = 0 then (b1.radius + b2.radius, 0, b1.radius + b2.radius)
  else (b2.x - b1.x, b2.y - b1.y, dist)

namespace BallThread

/-- Impulse resolution of `Ball::checkCollisionWithBalls` (lines 107–136),
acting on an already-adjusted `(dx, dy, distance)` triple: unit normal,
relative velocity along it, skip when separating (`velAlongNormal > 0`),
otherwise apply the impulse to both balls' velocities. -/
def resolvePair (b1 b2 : Ball) (dx dy d : ℚ) : Ball × Ball :=
  let nx := dx / d
  let ny := dy / d
  let s := (b2.vx - b1.vx) * nx + (b2.vy - b1.vy) * ny
  if 0 < s then (b1, b2)
  else
    let j := -(1 + RESTITUTION) * s / (1 / b1.mass + 1 / b2.mass)
    ({ b1 with vx := b1.vx - j * nx / b1.mass, vy := b1.vy - j * ny / b1.mass },
     { b2 with vx := b2.vx + j * nx / b2.mass, vy := b2.vy + j * ny / b2.mass })

/-- One iteration of the loop body of `Ball::checkCollisionWithBalls` for a
candidate ball: narrow-phase overlap test, then impulse resolution.  `dist`
is the value `std::sqrt(distanceSquared)` computed by the source. -/
def checkPair (b1 b2 : Ball) (dist : ℚ) : Ball × Ball :=
  if (b2.x - b1.x) * (b2.x - b1.x) + (b2.y - b1.y) * (b2.y - b1.y) <
      (b1.radius + b2.radius) * (b1.radius + b2.radius) then
    resolvePair b1 b2 (adjDelta0 b1 b2 dist).1 (adjDelta0 b1 b2 dist).2.1
      (adjDelta0 b1 b2 dist).2.2
  else (b1, b2)

end BallThread

namespace GridBall

/-- `constexpr float GRAVITY = 400.0f` in `src/unnamed/part_009`. -/
def GRAVITY : ℚ := 400

/-- `constexpr float RESTITUTION = 0.8f` in `src/unnamed/part_009`. -/
def RESTITUTION : ℚ := 4 / 5

/-- `const float DAMPING = 0.999f` in `Ball::updatePosition` of
`src/unnamed/part_009`. -/
def DAMPING : ℚ := 999 / 1000

/-- `Ball::updatePosition` of `src/unnamed/part_009`: gravity, Euler
integration, per-axis clamp with restitution, then velocity damping. -/
def updatePosition (W H dt : ℚ) (b : Ball) : Ball :=
  { b with
    x := if b.x + b.vx * dt - b.radius < 0 then b.radius
         else if W < b.x + b.vx * dt + b.radius then W - b.radius
         else b.x + b.vx * dt,
    vx := (if b.x + b.vx * dt - b.radius < 0 then abs b.vx * RESTITUTION
           else if W < b.x + b.vx * dt + b.radius then -(abs b.vx) * RESTITUTION
           else b.vx) * DAMPING,
    y := if b.y + (b.vy + GRAVITY * dt) * dt - b.radius < 0 then b.radius
         else if H < b.y + (b.vy + GRAVITY * dt) * dt + b.radius then H - b.radius
         else b.y + (b.vy + GRAVITY * dt) * dt,
    vy := (if b.y + (b.vy + GRAVITY * dt) * dt - b.radius < 0 then
             abs (b.vy + GRAVITY * dt) * RESTITUTION
           else if H < b.y + (b.vy + GRAVITY * dt) * dt + b.radius then
             -(abs (b.vy + GRAVITY * dt)) * RESTITUTION
           else b.vy + GRAVITY * dt) * DAMPING }

/-- Lock-acquisition order of `Ball::detectCollisions` in
`src/unnamed/part_009` (lines 51–58): the pair `(first, second)` of ball
ids whose mutexes are passed, in that order, to `std::scoped_lock`. -/
def lockOrder (selfId otherId : Int) : Int × Int :=
  if otherId < selfId then (otherId, selfId) else (selfId, otherId)

/-- Impulse-and-correction step of `Ball::detectCollisions` in
`src/unnamed/part_009` (lines 73–101), acting on an adjusted
`(dx, dy, distance)` triple.  Note the source computes the relative
velocity as self minus other and resolves when the component along the
normal is negative. -/
def resolvePair (b1 b2 : Ball) (dx dy d : ℚ) : Ball × Ball :=
  let nx := dx / d
  let ny := dy / d
  let s := (b1.vx - b2.vx) * nx + (b1.vy - b2.vy) * ny
  if s < 0 then
    let j := -(1 + RESTITUTION) * s / (1 / b1.mass + 1 / b2.mass)
    let ov := ((b1.radius + b2.radius) - d) / 2
    ({ b1 with x := b1.x - nx * ov, y := b1.y - ny * ov,
               vx := b1.vx + j * nx / b1.mass, vy := b1.vy + j * ny / b1.mass },
     { b2 with x := b2.x + nx * ov, y := b2.y + ny * ov,
               vx := b2.vx - j * nx / b2.mass, vy := b2.vy - j * ny / b2.mass })
  else (b1, b2)

/-- One candidate iteration of `Ball::detectCollisions` in
`src/unnamed/part_009`: overlap test, degenerate-distance adjustment, then
the impulse-and-correction step.  `dist` models `std::sqrt(distanceSquared)`. -/
def detectPair (b1 b2 : Ball) (dist : ℚ) : Ball × Ball :=
  if (b2.x - b1.x) * (b2.x - b1.x) + (b2.y - b1.y) * (b2.y - b1.y) <
      (b1.radius + b2.radius) * (b1.radius + b2.radius) then
    resolvePair b1 b2 (adjDelta0 b1 b2 dist).1 (adjDelta0 b1 b2 dist).2.1
      (adjDelta0 b1 b2 dist).2.2
  else (b1, b2)

end GridBall

namespace CLKernel

/-- Degenerate-case adjustment of `detectCollisions` in
`src/kernels/simulation.cl` (lines 172–176): if the computed distance is
below `0.0001f`, replace `(delta, distance)` by `((minDist, 0), minDist)`. -/
def adjDelta (b1 b2 : Ball) (dist : ℚ) : ℚ × ℚ × ℚ :=
  if dist < 1 / 10000 then (b1.radius + b2.radius, 0, b1.radius + b2.radius)
  else (b2.x - b1.x, b2.y - b1.y, dist)

/-- Impulse and positional correction of `detectCollisions` in
`src/kernels/simulation.cl` (lines 178–207), with the restitution `e` taken
from `SimConstants`.  Resolves only when the relative velocity along the
normal is negative (approaching). -/
def resolvePair (e : ℚ) (b1 b2 : Ball) (dx dy d : ℚ) : Ball × Ball :=
  let nx := dx / d
  let ny := dy / d
  let s := (b2.vx - b1.vx) * nx + (b2.vy - b1.vy) * ny
  if s < 0 then
    let j := -(1 + e) * s / (1 / b1.mass + 1 / b2.mass)
    let corr := max ((b1.radius + b2.radius) - d) 0 / (1 / b1.mass + 1 / b2.mass) * (8 / 10)
    ({ b1 with x := b1.x - corr * nx / b1.mass, y := b1.y - corr * ny / b1.mass,
               vx := b1.vx - j * nx / b1.mass, vy := b1.vy - j * ny / b1.mass },
     { b2 with x := b2.x + corr * nx / b2.mass, y := b2.y + corr * ny / b2.mass,
               vx := b2.vx + j * nx / b2.mass, vy := b2.vy + j * ny / b2.mass })
  else (b1, b2)

/-- One collision pair of the `detectCollisions` kernel in
`src/kernels/simulation.cl`: overlap test, degenerate adjustment, then
impulse resolution.  `dist` models `sqrt(distSquared)`. -/
def detectPair (e : ℚ) (b1 b2 : Ball) (dist : ℚ) : Ball × Ball :=
  if (b2.x - b1.x) * (b2.x - b1.x) + (b2.y - b1.y) * (b2.y - b1.y) <
      (b1.radius + b2.radius) * (b1.radius + b2.radius) then
    resolvePair e b1 b2 (adjDelta b1 b2 dist).1 (adjDelta b1 b2 dist).2.1
      (adjDelta b1 b2 dist).2.2
  else (b1, b2)

end CLKernel

namespace SimCtor

/-- `config::Balls::MIN_COUNT` from `include/Config.h`. -/
def MIN_COUNT : Int := 3

/-- `config::Balls::MAX_COUNT` from `include/Config.h`. -/
def MAX_COUNT : Int := 200

/-- The three ball configurations of `Simulation::initializeBalls`
(`src/Simulation.cpp` lines 311–315): (radius, mass, colour). -/
def ballConfig (i : Fin 3) : ℚ × ℚ × Int :=
  if i.val = 0 then (15, 3, 0xFF0000FF)
  else if i.val = 1 then (20, 5, 0x00FF00FF)
  else (25, 7, 0x0000FFFF)

/-- Overlap rejection test of `Simulation::initializeBalls`
(lines 356–367): the candidate at `(x, y)` with radius `r` is rejected
when some already placed ball is closer than
`(existingBall.radius + r) * MIN_SEPARATION`.  The constant
`config::Balls::MIN_SEPARATION` is referenced by `src/Simulation.cpp` but
not defined under `src/`; it is kept as the parameter `minSep`. -/
def overlapsAny (placed : List Ball) (r x y minSep : ℚ) : Bool :=
  placed.any (fun eb =>
    decide ((eb.x - x) * (eb.x - x) + (eb.y - y) * (eb.y - y) <
      ((eb.radius + r) * minSep) * ((eb.radius + r) * minSep)))

/-- `const int maxAttempts = 50` of `Simulation::initializeBalls`. -/
def maxAttempts : Nat := 50

/-- Build the `Ball` record pushed by `Simulation::initializeBalls` from a
configuration `(radius, mass, colour)` and a drawn `(x, y, vx, vy)`.  The
GPU-variant ball record has no id field; the model fixes it at 0. -/
def mkPlacedBall (c : ℚ × ℚ × Int) (p : ℚ × ℚ × ℚ × ℚ) : Ball :=
  { id := 0, x := p.1, y := p.2.1, vx := p.2.2.1, vy := p.2.2.2,
    radius := c.1, mass := c.2.1, color := c.2.2 }

/-- Attempt loop of `Simulation::initializeBalls` (lines 343–368) for one
grid cell: up to `maxAttempts` draws from the oracle stream `attempt`; the
first draw that passes the overlap test yields the placed ball. -/
def tryPlace (attempt : Nat → ℚ × ℚ × ℚ × ℚ) (c : ℚ × ℚ × Int) (minSep : ℚ)
    (placed : List Ball) : Option Ball :=
  (List.range maxAttempts).findSome? (fun a =>
    if overlapsAny placed c.1 (attempt a).1 (attempt a).2.1 minSep then none
    else some (mkPlacedBall c (attempt a)))

/-- Cell iteration of `Simulation::initializeBalls` (lines 333–375),
linearised row-major over cell indices: while fewer than `numBalls` balls
are placed, try to place one ball per cell; a cell whose attempt budget is
exhausted is skipped and the loop proceeds (the ball is dropped).  `cfg`
models the `configDist(gen)` draws and `att` the position/velocity draws. -/
def placeLoop (cfg : Nat → Fin 3) (att : Nat → Nat → ℚ × ℚ × ℚ × ℚ)
    (minSep : ℚ) (numBalls : Nat) : List Nat → List Ball → List Ball
  | [], placed => placed
  | slot :: rest, placed =>
    if placed.length < numBalls then
      match tryPlace (att slot) (ballConfig (cfg slot)) minSep placed with
      | some b => placeLoop cfg att minSep numBalls rest (placed ++ [b])
      | none => placeLoop cfg att minSep numBalls rest placed
    else placed

/-- `static_cast<int>(std::sqrt(numBalls * screenWidth / screenHeight))`
(line 325), modelled exactly: the truncated square root of the truncated
rational quotient equals the floor of the real square root for nonnegative
arguments. -/
def gridColsOf (numBalls : Int) (W H : ℚ) : Nat :=
  Nat.sqrt (Int.toNat ⌊(numBalls : ℚ) * W / H⌋)

/-- `Simulation::initializeBalls` (`src/Simulation.cpp` lines 296–382):
bounds guard, grid-based placement with rejection sampling, and the
final empty-result check. -/
def initBalls (cfg : Nat → Fin 3) (att : Nat → Nat → ℚ × ℚ × ℚ × ℚ)
    (minSep W H : ℚ) (numBalls : Int) : Except String (List Ball) :=
  if numBalls < MIN_COUNT ∨ MAX_COUNT < numBalls then
    Except.error "Invalid number of balls specified"
  else
    let cols := gridColsOf numBalls W H
    let rows := (numBalls.toNat + cols - 1) / cols
    let balls := placeLoop cfg att minSep numBalls.toNat (List.range (rows * cols)) []
    if balls.isEmpty then Except.error "Failed to initialize any balls"
    else Except.ok balls

/-- `config::Physics::DT` from `include/Config.h`. -/
def PHYSICS_DT : ℚ := 1 / 240

/-- `config::Physics::GRAVITY` from `include/Config.h`. -/
def PHYSICS_GRAVITY : ℚ := 981 / 100

/-- `config::Physics::RESTITUTION` from `include/Config.h`. -/
def PHYSICS_RESTITUTION : ℚ := 4 / 5

/-- `Simulation::validateConfig` (`src/Simulation.cpp` lines 436–457) on
the constants set by the constructor. -/
def validateCfg (W H : ℚ) : Except String Unit :=
  if W ≤ 0 ∨ H ≤ 0 then Except.error "Invalid screen dimensions"
  else if PHYSICS_GRAVITY < -100 ∨ 100 < PHYSICS_GRAVITY then
    Except.error "Invalid gravity value"
  else if PHYSICS_RESTITUTION < 0 ∨ 1 < PHYSICS_RESTITUTION then
    Except.error "Invalid restitution value"
  else if PHYSICS_DT ≤ 0 ∨ (1 / 10 : ℚ) < PHYSICS_DT then
    Except.error "Invalid time step value"
  else Except.ok ()

/-- A fully constructed simulation: the authoritative ball list and arena. -/
structure Simulation where
  balls : List Ball
  screenWidth : ℚ
  screenHeight : ℚ

/-- The `Simulation` constructor (`src/Simulation.cpp` lines 13–58)
restricted to its modelled parts: `initializeBalls` then `validateConfig`;
any exception propagates to the caller, so no `Simulation` value is
produced on failure. -/
def mkSimulation (cfg : Nat → Fin 3) (att : Nat → Nat → ℚ × ℚ × ℚ × ℚ)
    (minSep : ℚ) (numBalls : Int) (W H : ℚ) : Except String Simulation :=
  match initBalls cfg att minSep W H numBalls with
  | Except.error msg => Except.error msg
  | Except.ok balls =>
    match validateCfg W H with
    | Except.error msg => Except.error msg
    | Except.ok _ => Except.ok { balls := balls, screenWidth := W, screenHeight := H }

end SimCtor

/-- Example ball with id 0, used as a concrete instance in several claims. -/
def ballA : Ball := ⟨0, 0, 0, 0, 0, 10, 1, 0⟩

/-- Example ball with id 1, overlapping `ballA`. -/
def ballB : Ball := ⟨1, 5, 0, 0, 0, 10, 1, 0⟩

/-- Ball used in the C3 evaluation: id 0 at the origin, moving left. -/
def sepA : Ball := ⟨0, 0, 0, -1, 0, 1, 1, 0⟩

/-- Ball used in the C3 evaluation: id 1 one unit to the right of `sepA`
and overlapping it, moving right — so the pair is separating. -/
def sepB : Ball := ⟨1, 1, 0, 1, 0, 1, 1, 0⟩

/-- Ball coincident with `coB`, used in the C6 witness. -/
def coA : Ball := ⟨0, 3, 3, 0, 0, 2, 1, 0⟩

/-- Ball coincident with `coA`, used in the C6 witness. -/
def coB : Ball := ⟨1, 3, 3, 0, 0, 2, 1, 0⟩

/-- Ball used in the C10 witness: moving right in the arena interior. -/
def midBall : Ball := ⟨0, 100, 100, 5, 0, 10, 1, 0⟩

/-- C1 counterexample: in `Ball::checkCollisionWithBalls` the only skipped
candidate is the caller itself, so the ball with id 1 subjects the
candidate with the strictly smaller id 0 to the narrow-phase test —
refuting the claim that only candidates with larger or equal id are
tested. -/
theorem C1_counterexample :
    ballA ∈ BallThread.narrowPhaseCandidates ballB [ballA, ballB] ∧
    ballA.id < ballB.id := by
  constructor
  · simp [BallThread.narrowPhaseCandidates, ballA, ballB]
  · norm_num [ballA, ballB]

/-- C1 amended: the CPU resolver tests narrow-phase overlap against every
broad-phase candidate whose id differs from its own, so each unordered
pair of distinct balls is tested twice per tick — once from each
endpoint — rather than exactly once. -/
theorem C1_amended_pair_tested_from_both_sides (a b : Ball) (balls : List Ball)
    (ha : a ∈ balls) (hb : b ∈ balls) (hab : a.id ≠ b.id) :
    b ∈ BallThread.narrowPhaseCandidates a balls ∧
    a ∈ BallThread.narrowPhaseCandidates b balls := by
  unfold BallThread.narrowPhaseCandidates
  exact ⟨List.mem_filter.mpr ⟨hb, by simpa [bne_iff_ne] using Ne.symm hab⟩,
         List.mem_filter.mpr ⟨ha, by simpa [bne_iff_ne] using hab⟩⟩

/-- C1 amended, witness at a concrete pair of balls. -/
theorem C1_amended_witness :
    ballB ∈ BallThread.narrowPhaseCandidates ballA [ballA, ballB] ∧
    ballA ∈ BallThread.narrowPhaseCandidates ballB [ballA, ballB] :=
  C1_amended_pair_tested_from_both_sides ballA ballB [ballA, ballB]
    (by simp) (by simp) (by norm_num [ballA, ballB])

/-- C2: after the integrate-then-clamp update step, the ball's position
lies in `[radius, W - radius] × [radius, H - radius]`, for the grid
variant's `Ball::updatePosition` and for the thread variant's
gravity/integrate/boundary tick, whenever the ball's diameter fits the
arena. -/
theorem C2_containment (W H dt : ℚ) (b : Ball)
    (hW : 2 * b.radius ≤ W) (hH : 2 * b.radius ≤ H) :
    (b.radius ≤ (GridBall.updatePosition W H dt b).x ∧
     (GridBall.updatePosition W H dt b).x ≤ W - b.radius ∧
     b.radius ≤ (GridBall.updatePosition W H dt b).y ∧
     (GridBall.updatePosition W H dt b).y ≤ H - b.radius) ∧
    (b.radius ≤ (BallThread.tick W H dt b).x ∧
     (BallThread.tick W H dt b).x ≤ W - b.radius ∧
     b.radius ≤ (BallThread.tick W H dt b).y ∧
     (BallThread.tick W H dt b).y ≤ H - b.radius) := by
  constructor
  · unfold GridBall.updatePosition
    refine ⟨?_, ?_, ?_, ?_⟩ <;> (dsimp only; split_ifs <;> linarith)
  · unfold BallThread.tick BallThread.checkCollisionWithBoundary
      BallThread.updatePosition BallThread.applyGravity
    refine ⟨?_, ?_, ?_, ?_⟩ <;> (dsimp only; split_ifs <;> linarith)

/-- C2 witness: a concrete ball in the 1400×900 arena. -/
theorem C2_containment_witness :
    (ballA.radius ≤ (GridBall.updatePosition 1400 900 (1/30) ballA).x ∧
     (GridBall.updatePosition 1400 900 (1/30) ballA).x ≤ 1400 - ballA.radius ∧
     ballA.radius ≤ (GridBall.updatePosition 1400 900 (1/30) ballA).y ∧
     (GridBall.updatePosition 1400 900 (1/30) ballA).y ≤ 900 - ballA.radius) ∧
    (ballA.radius ≤ (BallThread.tick 1400 900 (1/30) ballA).x ∧
     (BallThread.tick 1400 900 (1/30) ballA).x ≤ 1400 - ballA.radius ∧
     ballA.radius ≤ (BallThread.tick 1400 900 (1/30) ballA).y ∧
     (BallThread.tick 1400 900 (1/30) ballA).y ≤ 900 - ballA.radius) :=
  C2_containment 1400 900 (1/30) ballA (by norm_num [ballA]) (by norm_num [ballA])

/-- C3 evaluation at the failing input: `sepA`/`sepB` overlap (distance 1,
radii sum 2) and are separating (relative velocity along the
centre-to-centre normal is +2), yet the grid variant's
`Ball::detectCollisions` (`src/unnamed/part_009`) alters both velocities,
because it computes the relative velocity as self minus other but keeps
the `< 0` resolve guard of the other-minus-self convention.  The thread
variant (`src/Ball.cpp`) leaves the same pair unchanged, as the spec
requires. -/
theorem C3_separating_pair_mutated_by_grid_variant :
    1 * 1 = (sepB.x - sepA.x) * (sepB.x - sepA.x) +
      (sepB.y - sepA.y) * (sepB.y - sepA.y) ∧
    (sepB.x - sepA.x) * (sepB.x - sepA.x) + (sepB.y - sepA.y) * (sepB.y - sepA.y) <
      (sepA.radius + sepB.radius) * (sepA.radius + sepB.radius) ∧
    0 < (sepB.vx - sepA.vx) * ((sepB.x - sepA.x) / 1) +
      (sepB.vy - sepA.vy) * ((sepB.y - sepA.y) / 1) ∧
    (GridBall.detectPair sepA sepB 1).1.vx ≠ sepA.vx ∧
    (GridBall.detectPair sepA sepB 1).2.vx ≠ sepB.vx ∧
    (BallThread.checkPair sepA sepB 1).1 = sepA ∧
    (BallThread.checkPair sepA sepB 1).2 = sepB := by
  refine ⟨by norm_num [sepA, sepB], by norm_num [sepA, sepB],
    by norm_num [sepA, sepB], ?_, ?_, ?_, ?_⟩ <;>
  norm_num [sepA, sepB, GridBall.detectPair, GridBall.resolvePair, adjDelta0,
    GridBall.RESTITUTION, BallThread.checkPair, BallThread.resolvePair,
    BallThread.RESTITUTION]

/-- C9: `Ball::detectCollisions` passes the two mutexes to
`std::scoped_lock` ordered by ascending ball id: the ordered pair it locks
is `(min, max)` of the two ids, hence identical no matter which of the two
balls runs the resolution — a single globally consistent lock order. -/
theorem C9_lock_order_ascending_and_symmetric (a b : Int) :
    GridBall.lockOrder a b = (min a b, max a b) ∧
    GridBall.lockOrder a b = GridBall.lockOrder b a := by
  unfold GridBall.lockOrder
  constructor
  · split_ifs with h
    · rw [min_eq_right (le_of_lt h), max_eq_left (le_of_lt h)]
    · push_neg at h
      rw [min_eq_left h, max_eq_right h]
  · split_ifs with h1 h2 h2 <;> try rfl
    · exact absurd h2 (asymm h1)
    · have hab : a = b := le_antisymm (le_of_not_lt h1) (le_of_not_lt h2)
      rw [hab]

/-- C10: when no boundary clamp fires, the grid variant's
`Ball::updatePosition` still multiplies both velocity components by the
damping factor 0.999 after gravity and integration, so the horizontal
speed strictly decreases every tick even without any collision. -/
theorem C10_damping_every_tick (W H dt : ℚ) (b : Ball)
    (hx1 : 0 ≤ b.x + b.vx * dt - b.radius)
    (hx2 : b.x + b.vx * dt + b.radius ≤ W)
    (hy1 : 0 ≤ b.y + (b.vy + GridBall.GRAVITY * dt) * dt - b.radius)
    (hy2 : b.y + (b.vy + GridBall.GRAVITY * dt) * dt + b.radius ≤ H) :
    (GridBall.updatePosition W H dt b).vx = b.vx * GridBall.DAMPING ∧
    (GridBall.updatePosition W H dt b).vy =
      (b.vy + GridBall.GRAVITY * dt) * GridBall.DAMPING ∧
    (b.vx ≠ 0 → abs (GridBall.updatePosition W H dt b).vx < abs b.vx) := by
  have h1 : ¬ (b.x + b.vx * dt - b.radius < 0) := not_lt.mpr hx1
  have h2 : ¬ (W < b.x + b.vx * dt + b.radius) := not_lt.mpr hx2
  have h3 : ¬ (b.y + (b.vy + GridBall.GRAVITY * dt) * dt - b.radius < 0) := not_lt.mpr hy1
  have h4 : ¬ (H < b.y + (b.vy + GridBall.GRAVITY * dt) * dt + b.radius) := not_lt.mpr hy2
  unfold GridBall.updatePosition
  dsimp only
  rw [if_neg h1, if_neg h2, if_neg h3, if_neg h4]
  refine ⟨rfl, rfl, fun hvx => ?_⟩
  rw [abs_mul]
  have habs : abs GridBall.DAMPING = 999 / 1000 := by
    rw [GridBall.DAMPING]; norm_num
  rw [habs]
  have hpos : 0 < abs b.vx := abs_pos.mpr hvx
  linarith

/-- C6: the adjusted `(dx, dy, distance)` triples used to form the unit
normal never carry a zero divisor (the degenerate branches substitute
`minDist = r1 + r2 > 0`), and when the computed distance is zero — which
is the case of exactly coincident centres, since the distance is the
square root of the squared centre distance — the normal evaluates to the
fixed vector `(1, 0)` in both the CPU (`dist == 0`) and the kernel
(`dist < 0.0001`) degenerate policies. -/
theorem C6_degenerate_normal (b1 b2 : Ball) (dist : ℚ)
    (hr : 0 < b1.radius + b2.radius) :
    (adjDelta0 b1 b2 dist).2.2 ≠ 0 ∧
    (CLKernel.adjDelta b1 b2 dist).2.2 ≠ 0 ∧
    (dist = 0 →
      (adjDelta0 b1 b2 dist).1 / (adjDelta0 b1 b2 dist).2.2 = 1 ∧
      (adjDelta0 b1 b2 dist).2.1 / (adjDelta0 b1 b2 dist).2.2 = 0 ∧
      (CLKernel.adjDelta b1 b2 dist).1 / (CLKernel.adjDelta b1 b2 dist).2.2 = 1 ∧
      (CLKernel.adjDelta b1 b2 dist).2.1 / (CLKernel.adjDelta b1 b2 dist).2.2 = 0) := by
  refine ⟨?_, ?_, ?_⟩
  · unfold adjDelta0
    split_ifs with h
    · exact ne_of_gt hr
    · exact h
  · unfold CLKernel.adjDelta
    split_ifs with h
    · exact ne_of_gt hr
    · intro h0
      dsimp only at h0
      rw [h0] at h
      norm_num at h
  · intro h0
    subst h0
    unfold adjDelta0 CLKernel.adjDelta
    rw [if_pos rfl, if_pos (by norm_num)]
    exact ⟨div_self (ne_of_gt hr), zero_div _,
           div_self (ne_of_gt hr), zero_div _⟩

/-- C6 witness at a concrete coincident pair with distance 0. -/
theorem C6_degenerate_normal_witness :
    (adjDelta0 coA coB 0).2.2 ≠ 0 ∧
    (CLKernel.adjDelta coA coB 0).2.2 ≠ 0 ∧
    ((0 : ℚ) = 0 →
      (adjDelta0 coA coB 0).1 / (adjDelta0 coA coB 0).2.2 = 1 ∧
      (adjDelta0 coA coB 0).2.1 / (adjDelta0 coA coB 0).2.2 = 0 ∧
      (CLKernel.adjDelta coA coB 0).1 / (CLKernel.adjDelta coA coB 0).2.2 = 1 ∧
      (CLKernel.adjDelta coA coB 0).2.1 / (CLKernel.adjDelta coA coB 0).2.2 = 0) :=
  C6_degenerate_normal coA coB 0 (by norm_num [coA, coB])

/-- C7: a requested ball count strictly below `MIN_COUNT` or strictly
above `MAX_COUNT` makes `Simulation::initializeBalls` throw before any
ball is created, and the constructor propagates the failure, so no
`Simulation` value is handed back. -/
theorem C7_count_guard (cfg : Nat → Fin 3) (att : Nat → Nat → ℚ × ℚ × ℚ × ℚ)
    (minSep W H : ℚ) (numBalls : Int)
    (h : numBalls < SimCtor.MIN_COUNT ∨ SimCtor.MAX_COUNT < numBalls) :
    SimCtor.initBalls cfg att minSep W H numBalls =
      Except.error "Invalid number of balls specified" ∧
    SimCtor.mkSimulation cfg att minSep numBalls W H =
      Except.error "Invalid number of balls specified" := by
  have hinit : SimCtor.initBalls cfg att minSep W H numBalls =
      Except.error "Invalid number of balls specified" := by
    unfold SimCtor.initBalls
    rw [if_pos h]
  refine ⟨hinit, ?_⟩
  unfold SimCtor.mkSimulation
  rw [hinit]

/-- C7 witness: requesting 2 balls fails construction. -/
theorem C7_count_guard_witness :
    SimCtor.initBalls (fun _ => (0 : Fin 3)) (fun _ _ => (0, 0, 0, 0)) 1 1400 900 2 =
      Except.error "Invalid number of balls specified" ∧
    SimCtor.mkSimulation (fun _ => (0 : Fin 3)) (fun _ _ => (0, 0, 0, 0)) 1 2 1400 900 =
      Except.error "Invalid number of balls specified" :=
  C7_count_guard (fun _ => (0 : Fin 3)) (fun _ _ => (0, 0, 0, 0)) 1 1400 900 2
    (Or.inl (by decide))

/-- C4: for an overlapping, approaching pair the kernel applies the
impulse `j = -(1+e)·velAlongNormal/(1/m1+1/m2)` as `±j·n/mass`; with equal
masses, restitution 1, and a 1D head-on configuration on the x-axis this
exactly exchanges the two velocities along the contact normal. -/
theorem C4_equal_mass_exchange (m r1 r2 x1 x2 u1 u2 : ℚ) (hm : 0 < m)
    (hov : (x2 - x1) * (x2 - x1) < (r1 + r2) * (r1 + r2))
    (hd : 1 / 10000 ≤ x2 - x1)
    (happr : u2 - u1 < 0) :
    (CLKernel.detectPair 1 ⟨0, x1, 0, u1, 0, r1, m, 0⟩ ⟨1, x2, 0, u2, 0, r2, m, 0⟩
      (x2 - x1)).1.vx = u2 ∧
    (CLKernel.detectPair 1 ⟨0, x1, 0, u1, 0, r1, m, 0⟩ ⟨1, x2, 0, u2, 0, r2, m, 0⟩
      (x2 - x1)).2.vx = u1 ∧
    (CLKernel.detectPair 1 ⟨0, x1, 0, u1, 0, r1, m, 0⟩ ⟨1, x2, 0, u2, 0, r2, m, 0⟩
      (x2 - x1)).1.vy = 0 ∧
    (CLKernel.detectPair 1 ⟨0, x1, 0, u1, 0, r1, m, 0⟩ ⟨1, x2, 0, u2, 0, r2, m, 0⟩
      (x2 - x1)).2.vy = 0 := by
  have hx0 : (0 : ℚ) < x2 - x1 := lt_of_lt_of_le (by norm_num) hd
  have hx : x2 - x1 ≠ 0 := ne_of_gt hx0
  have hm' : m ≠ 0 := ne_of_gt hm
  unfold CLKernel.detectPair CLKernel.adjDelta CLKernel.resolvePair
  dsimp only
  rw [if_neg (not_lt.mpr hd)]
  dsimp only
  simp only [sub_self, div_self hx, zero_div, mul_one, mul_zero, add_zero, zero_mul,
    sub_zero]
  rw [if_pos hov, if_pos happr]
  dsimp only
  refine ⟨?_, ?_, ?_, ?_⟩
  · field_simp
    ring
  · field_simp
    ring
  · field_simp
  · field_simp

/-- C4 witness: two unit-mass, unit-radius balls one unit apart on the
x-axis, closing at speed 2 with restitution 1, exchange their velocities. -/
theorem C4_equal_mass_exchange_witness :
    (CLKernel.detectPair 1 ⟨0, 0, 0, 1, 0, 1, 1, 0⟩ ⟨1, 1, 0, -1, 0, 1, 1, 0⟩
      ((1 : ℚ) - 0)).1.vx = -1 ∧
    (CLKernel.detectPair 1 ⟨0, 0, 0, 1, 0, 1, 1, 0⟩ ⟨1, 1, 0, -1, 0, 1, 1, 0⟩
      ((1 : ℚ) - 0)).2.vx = 1 ∧
    (CLKernel.detectPair 1 ⟨0, 0, 0, 1, 0, 1, 1, 0⟩ ⟨1, 1, 0, -1, 0, 1, 1, 0⟩
      ((1 : ℚ) - 0)).1.vy = 0 ∧
    (CLKernel.detectPair 1 ⟨0, 0, 0, 1, 0, 1, 1, 0⟩ ⟨1, 1, 0, -1, 0, 1, 1, 0⟩
      ((1 : ℚ) - 0)).2.vy = 0 :=
  C4_equal_mass_exchange 1 1 1 0 1 1 (-1) (by norm_num) (by norm_num)
    (by norm_num) (by norm_num)

/-- Core impulse algebra: applying an impulse of magnitude
`j = -(1+e)·s/(1/m1+1/m2)` along a unit normal `(nx, ny)` to the two
balls' velocities changes the pair's total kinetic energy by
`-(1+e)(1-e)s²/(2(1/m1+1/m2))`, which is nonpositive for `e ∈ [-1, 1]`. -/
theorem ke_impulse_le (m1 m2 e nx ny v1x v1y v2x v2y s j : ℚ)
    (hm1 : 0 < m1) (hm2 : 0 < m2)
    (hn : nx * nx + ny * ny = 1)
    (hs : s = (v2x - v1x) * nx + (v2y - v1y) * ny)
    (hj : j = -(1 + e) * s / (1 / m1 + 1 / m2))
    (he0 : -1 ≤ e) (he1 : e ≤ 1) :
    m1 * ((v1x - j * nx / m1) * (v1x - j * nx / m1) +
          (v1y - j * ny / m1) * (v1y - j * ny / m1)) / 2 +
    m2 * ((v2x + j * nx / m2) * (v2x + j * nx / m2) +
          (v2y + j * ny / m2) * (v2y + j * ny / m2)) / 2 ≤
    m1 * (v1x * v1x + v1y * v1y) / 2 + m2 * (v2x * v2x + v2y * v2y) / 2 := by
  have hm1' : m1 ≠ 0 := ne_of_gt hm1
  have hm2' : m2 ≠ 0 := ne_of_gt hm2
  have hK : (0 : ℚ) < 1 / m1 + 1 / m2 := by positivity
  have hK' : 1 / m1 + 1 / m2 ≠ 0 := ne_of_gt hK
  have expand :
      m1 * ((v1x - j * nx / m1) * (v1x - j * nx / m1) +
            (v1y - j * ny / m1) * (v1y - j * ny / m1)) / 2 +
      m2 * ((v2x + j * nx / m2) * (v2x + j * nx / m2) +
            (v2y + j * ny / m2) * (v2y + j * ny / m2)) / 2 =
      m1 * (v1x * v1x + v1y * v1y) / 2 + m2 * (v2x * v2x + v2y * v2y) / 2 +
      (j * ((v2x - v1x) * nx + (v2y - v1y) * ny) +
       j * j * (nx * nx + ny * ny) * (1 / m1 + 1 / m2) / 2) := by
    field_simp
    ring
  rw [expand, hn, ← hs]
  have hdrop : j * s + j * j * 1 * (1 / m1 + 1 / m2) / 2 =
      -((1 + e) * (1 - e) * (s * s)) / (2 * (1 / m1 + 1 / m2)) := by
    rw [hj]
    field_simp
    ring
  rw [hdrop]
  have hnum : 0 ≤ (1 + e) * (1 - e) * (s * s) :=
    mul_nonneg (mul_nonneg (by linarith) (by linarith)) (mul_self_nonneg s)
  have hfrac : 0 ≤ (1 + e) * (1 - e) * (s * s) / (2 * (1 / m1 + 1 / m2)) :=
    div_nonneg hnum (by positivity)
  rw [neg_div]
  linarith

/-- Kinetic energy of a pair never increases across the kernel's impulse
step, for any unit normal: either the pair is separating (no-op) or the
impulse removes `(1+e)(1-e)s²/(2K)` of energy. -/
theorem resolveCL_ke_le (e : ℚ) (b1 b2 : Ball) (dx dy d : ℚ)
    (hm1 : 0 < b1.mass) (hm2 : 0 < b2.mass)
    (hn : (dx / d) * (dx / d) + (dy / d) * (dy / d) = 1)
    (he0 : -1 ≤ e) (he1 : e ≤ 1) :
    ke (CLKernel.resolvePair e b1 b2 dx dy d).1 +
      ke (CLKernel.resolvePair e b1 b2 dx dy d).2 ≤ ke b1 + ke b2 := by
  unfold CLKernel.resolvePair
  dsimp only
  split_ifs with hs
  · unfold ke
    dsimp only
    exact ke_impulse_le b1.mass b2.mass e (dx / d) (dy / d) b1.vx b1.vy b2.vx b2.vy
      ((b2.vx - b1.vx) * (dx / d) + (b2.vy - b1.vy) * (dy / d))
      (-(1 + e) * ((b2.vx - b1.vx) * (dx / d) + (b2.vy - b1.vy) * (dy / d)) /
        (1 / b1.mass + 1 / b2.mass))
      hm1 hm2 hn rfl rfl he0 he1
  · exact le_refl _

/-- Kinetic energy of a pair never increases across the thread variant's
impulse step (`Ball::checkCollisionWithBalls`), for any unit normal. -/
theorem resolveCpp_ke_le (b1 b2 : Ball) (dx dy d : ℚ)
    (hm1 : 0 < b1.mass) (hm2 : 0 < b2.mass)
    (hn : (dx / d) * (dx / d) + (dy / d) * (dy / d) = 1) :
    ke (BallThread.resolvePair b1 b2 dx dy d).1 +
      ke (BallThread.resolvePair b1 b2 dx dy d).2 ≤ ke b1 + ke b2 := by
  unfold BallThread.resolvePair
  dsimp only
  split_ifs with hs
  · exact le_refl _
  · unfold ke
    dsimp only
    exact ke_impulse_le b1.mass b2.mass BallThread.RESTITUTION (dx / d) (dy / d)
      b1.vx b1.vy b2.vx b2.vy
      ((b2.vx - b1.vx) * (dx / d) + (b2.vy - b1.vy) * (dy / d))
      (-(1 + BallThread.RESTITUTION) *
        ((b2.vx - b1.vx) * (dx / d) + (b2.vy - b1.vy) * (dy / d)) /
        (1 / b1.mass + 1 / b2.mass))
      hm1 hm2 hn rfl rfl
      (by norm_num [BallThread.RESTITUTION]) (by norm_num [BallThread.RESTITUTION])

/-- C5: total kinetic energy of a pair does not increase across a single
impulse-resolution step, in the kernel (restitution `e < 1` from
`SimConstants`) and in the thread variant (restitution 0.9).  `dist` is
the square root of the squared centre distance. -/
theorem C5_energy_nonincrease (e : ℚ) (b1 b2 : Ball) (dist : ℚ)
    (hm1 : 0 < b1.mass) (hm2 : 0 < b2.mass)
    (hr : 0 < b1.radius + b2.radius)
    (hdist : dist * dist =
      (b2.x - b1.x) * (b2.x - b1.x) + (b2.y - b1.y) * (b2.y - b1.y))
    (hd0 : 0 ≤ dist) (he0 : 0 ≤ e) (he1 : e < 1) :
    ke (CLKernel.detectPair e b1 b2 dist).1 + ke (CLKernel.detectPair e b1 b2 dist).2 ≤
      ke b1 + ke b2 ∧
    ke (BallThread.checkPair b1 b2 dist).1 + ke (BallThread.checkPair b1 b2 dist).2 ≤
      ke b1 + ke b2 := by
  have hrne : b1.radius + b2.radius ≠ 0 := ne_of_gt hr
  constructor
  · unfold CLKernel.detectPair CLKernel.adjDelta
    split_ifs with hov hdeg
    · dsimp only
      refine resolveCL_ke_le e b1 b2 (b1.radius + b2.radius) 0 (b1.radius + b2.radius)
        hm1 hm2 ?_ (by linarith) (le_of_lt he1)
      rw [div_self hrne, zero_div]
      norm_num
    · dsimp only
      have hdne : dist ≠ 0 := by
        intro h0
        rw [h0] at hdeg
        norm_num at hdeg
      refine resolveCL_ke_le e b1 b2 (b2.x - b1.x) (b2.y - b1.y) dist
        hm1 hm2 ?_ (by linarith) (le_of_lt he1)
      field_simp
      linear_combination -hdist
    · exact le_refl _
  · unfold BallThread.checkPair adjDelta0
    split_ifs with hov hdeg
    · dsimp only
      refine resolveCpp_ke_le b1 b2 (b1.radius + b2.radius) 0 (b1.radius + b2.radius)
        hm1 hm2 ?_
      rw [div_self hrne, zero_div]
      norm_num
    · dsimp only
      refine resolveCpp_ke_le b1 b2 (b2.x - b1.x) (b2.y - b1.y) dist hm1 hm2 ?_
      field_simp
      linear_combination -hdist
    · exact le_refl _

/-- C5 witness: a concrete overlapping, approaching pair with restitution
0.8 (the kernel's configured value). -/
theorem C5_energy_nonincrease_witness :
    ke (CLKernel.detectPair (4/5) ⟨0, 0, 0, 1, 1, 3, 1, 0⟩ ⟨1, 3, 4, -1, -1, 3, 2, 0⟩ 5).1 +
      ke (CLKernel.detectPair (4/5) ⟨0, 0, 0, 1, 1, 3, 1, 0⟩ ⟨1, 3, 4, -1, -1, 3, 2, 0⟩ 5).2 ≤
      ke ⟨0, 0, 0, 1, 1, 3, 1, 0⟩ + ke ⟨1, 3, 4, -1, -1, 3, 2, 0⟩ ∧
    ke (BallThread.checkPair ⟨0, 0, 0, 1, 1, 3, 1, 0⟩ ⟨1, 3, 4, -1, -1, 3, 2, 0⟩ 5).1 +
      ke (BallThread.checkPair ⟨0, 0, 0, 1, 1, 3, 1, 0⟩ ⟨1, 3, 4, -1, -1, 3, 2, 0⟩ 5).2 ≤
      ke ⟨0, 0, 0, 1, 1, 3, 1, 0⟩ + ke ⟨1, 3, 4, -1, -1, 3, 2, 0⟩ :=
  C5_energy_nonincrease (4/5) ⟨0, 0, 0, 1, 1, 3, 1, 0⟩ ⟨1, 3, 4, -1, -1, 3, 2, 0⟩ 5
    (by norm_num) (by norm_num) (by norm_num) (by norm_num) (by norm_num)
    (by norm_num) (by norm_num)

/-- First placement always succeeds: with no balls placed yet the overlap
check is vacuous, so the very first attempt of the budget is accepted. -/
theorem tryPlace_empty (att1 : Nat → ℚ × ℚ × ℚ × ℚ) (c : ℚ × ℚ × Int) (minSep : ℚ) :
    SimCtor.tryPlace att1 c minSep [] = some (SimCtor.mkPlacedBall c (att1 0)) := by
  unfold SimCtor.tryPlace SimCtor.maxAttempts
  rw [show (50 : Nat) = 49 + 1 from rfl, List.range_succ_eq_map, List.findSome?_cons]
  simp [SimCtor.overlapsAny]

/-- The placement loop never loses balls already placed: dropped cells are
skipped and successful cells append, so a nonempty accumulator stays
nonempty. -/
theorem placeLoop_ne_nil (cfg : Nat → Fin 3) (att : Nat → Nat → ℚ × ℚ × ℚ × ℚ)
    (minSep : ℚ) (numBalls : Nat) (slots : List Nat) (placed : List Ball)
    (h : placed ≠ []) :
    SimCtor.placeLoop cfg att minSep numBalls slots placed ≠ [] := by
  induction slots generalizing placed with
  | nil => simpa only [SimCtor.placeLoop] using h
  | cons s rest ih =>
    simp only [SimCtor.placeLoop]
    split_ifs with hlen
    · cases htp : SimCtor.tryPlace (att s) (SimCtor.ballConfig (cfg s)) minSep placed with
      | none => exact ih placed h
      | some b => exact ih (placed ++ [b]) (by simp)
    · exact h

/-- C8: whenever the ball count passes the bounds guard and the placement
grid has at least one column, `Simulation::initializeBalls` returns a
nonempty ball list for every outcome of the random draws — placement
failures only drop individual balls, and the first cell always places one,
so the final empty-list check never fires and construction never fails
because of placement. -/
theorem C8_placement_never_fails_construction (cfg : Nat → Fin 3)
    (att : Nat → Nat → ℚ × ℚ × ℚ × ℚ) (minSep W H : ℚ) (numBalls : Int)
    (hmin : SimCtor.MIN_COUNT ≤ numBalls) (hmax : numBalls ≤ SimCtor.MAX_COUNT)
    (hcols : 1 ≤ SimCtor.gridColsOf numBalls W H) :
    ∃ bs, SimCtor.initBalls cfg att minSep W H numBalls = Except.ok bs ∧ bs ≠ [] := by
  have hguard : ¬ (numBalls < SimCtor.MIN_COUNT ∨ SimCtor.MAX_COUNT < numBalls) := by
    simp only [SimCtor.MIN_COUNT, SimCtor.MAX_COUNT] at hmin hmax ⊢
    omega
  have hn1 : 1 ≤ numBalls.toNat := by
    simp only [SimCtor.MIN_COUNT] at hmin
    omega
  unfold SimCtor.initBalls
  rw [if_neg hguard]
  dsimp only
  set cols := SimCtor.gridColsOf numBalls W H with hc
  have hrows : 1 ≤ (numBalls.toNat + cols - 1) / cols :=
    (Nat.one_le_div_iff (by omega)).mpr (by omega)
  have hslots : 1 ≤ (numBalls.toNat + cols - 1) / cols * cols :=
    le_trans hrows (Nat.le_mul_of_pos_right _ (by omega))
  obtain ⟨k, hk⟩ : ∃ k, (numBalls.toNat + cols - 1) / cols * cols = k + 1 :=
    ⟨(numBalls.toNat + cols - 1) / cols * cols - 1, by omega⟩
  rw [hk, List.range_succ_eq_map]
  simp only [SimCtor.placeLoop]
  rw [if_pos (show ([] : List Ball).length < numBalls.toNat by
    simp only [List.length_nil]; omega)]
  rw [tryPlace_empty]
  have hne : SimCtor.placeLoop cfg att minSep numBalls.toNat
      ((List.range k).map Nat.succ)
      ([] ++ [SimCtor.mkPlacedBall (SimCtor.ballConfig (cfg 0)) (att 0 0)]) ≠ [] :=
    placeLoop_ne_nil cfg att minSep numBalls.toNat _ _ (by simp)
  rw [if_neg (by simpa [List.isEmpty_iff] using hne)]
  exact ⟨_, rfl, hne⟩

/-- C8 witness: three balls requested in a 900×900 arena with constant
draw streams; construction returns a nonempty ball list. -/
theorem C8_placement_witness :
    ∃ bs, SimCtor.initBalls (fun _ => (0 : Fin 3)) (fun _ _ => (100, 100, 0, 0))
      1 900 900 3 = Except.ok bs ∧ bs ≠ [] :=
  C8_placement_never_fails_construction (fun _ => (0 : Fin 3))
    (fun _ _ => (100, 100, 0, 0)) 1 900 900 3 (by decide) (by decide)
    (by unfold SimCtor.gridColsOf; rw [Nat.le_sqrt]; norm_num)

/-- C10 witness at a concrete interior ball. -/
theorem C10_damping_witness :
    (GridBall.updatePosition 1400 900 (1/30) midBall).vx =
      midBall.vx * GridBall.DAMPING ∧
    (GridBall.updatePosition 1400 900 (1/30) midBall).vy =
      (midBall.vy + GridBall.GRAVITY * (1/30)) * GridBall.DAMPING ∧
    (midBall.vx ≠ 0 →
      abs (GridBall.updatePosition 1400 900 (1/30) midBall).vx < abs midBall.vx) :=
  C10_damping_every_tick 1400 900 (1/30) midBall
    (by norm_num [midBall]) (by norm_num [midBall])
    (by norm_num [midBall, GridBall.GRAVITY])
    (by norm_num [midBall, GridBall.GRAVITY])

end BouncingBalls
